import Mathlib

/-!
Verification of the calendrical and celestial-coordinate conversion engine
of the `apollo` astronomy library.

The Rust sources (`src/time.rs`, `src/coordinate.rs`) are shallowly embedded
here: `f64` values become `ℚ` for the calendrical arithmetic (every number
appearing there is a decimal fraction, and all operations used — `+`, `-`,
`*`, `/` by powers of ten and small constants, `floor`, casts — are exact in
`ℚ` for these inputs) and `ℝ` for the trigonometric coordinate transforms.
Rust `as i64` casts (truncation toward zero) are modelled by `ratTrunc`,
Rust `%` on `i64` (remainder with the sign of the dividend) by `Int.tmod`,
and the wrapping integer casts `as i16` / `as u8` by `wrapI16` / `wrapU8`.
-/

namespace Apollo

/-- Represents a calendar type (`CalType` in `src/time.rs`). -/
inductive CalType
  /-- Gregorian calendar -/
  | gregorian
  /-- Julian calendar -/
  | julian
deriving DecidableEq

/-- Represents a month (`Month` in `src/time.rs`, an enum with
discriminants 1..12). -/
inductive Month
  | jan | feb | mar | apr | may | june | july | aug | sept | oct | nov | dec
deriving DecidableEq

/-- The integer discriminant of a `Month` (`date.month as u8` in the source). -/
def Month.num : Month → ℤ
  | .jan => 1 | .feb => 2 | .mar => 3 | .apr => 4 | .may => 5 | .june => 6
  | .july => 7 | .aug => 8 | .sept => 9 | .oct => 10 | .nov => 11 | .dec => 12

/-- Represents a date with year, month, decimal day and calendar type
(`Date` in `src/time.rs`; `year` is an `i16` there, embedded as `ℤ`). -/
structure Date where
  year : ℤ
  month : Month
  decimal_day : ℚ
  cal_type : CalType

/-- Represents a day of the week (`Weekday` in `src/time.rs`). -/
inductive Weekday
  | sunday | monday | tuesday | wednesday | thursday | friday | saturday
deriving DecidableEq

/-- Index of a weekday, Sunday = 0. -/
def Weekday.num : Weekday → ℤ
  | .sunday => 0 | .monday => 1 | .tuesday => 2 | .wednesday => 3
  | .thursday => 4 | .friday => 5 | .saturday => 6

/-- The two error conditions of `time::date_from_julian_day` (the source
returns distinct `&str` messages for them). -/
inductive DfjdError
  /-- The input Julian day was negative. -/
  | negativeInput
  /-- An internal-consistency branch was reached. -/
  | internalError
deriving DecidableEq

/-- Result of `date_from_julian_day`: models
`Result<(i16, u8, f64), &str>` from the source. -/
inductive DateResult
  | ok (year : ℤ) (month : ℤ) (day : ℚ)
  | err (e : DfjdError)
deriving DecidableEq

/-- Truncation toward zero of a rational, modelling Rust `as i64` on `f64`. -/
def ratTrunc (q : ℚ) : ℤ := if q < 0 then -⌊-q⌋ else ⌊q⌋

/-- Wrapping cast to `i16`, modelling Rust `as i16` on an `i64`. -/
def wrapI16 (n : ℤ) : ℤ := (n + 32768) % 65536 - 32768

/-- Wrapping cast to `u8`, modelling Rust `as u8` on an `i64`. -/
def wrapU8 (n : ℤ) : ℤ := n % 256

/-- `time::is_leap_year`: Julian rule is divisibility by 4; Gregorian rule
refines century years. -/
def is_leap_year (year : ℤ) (cal_type : CalType) : Bool :=
  match cal_type with
  | .julian => year % 4 == 0
  | .gregorian =>
    if year % 100 == 0 then year % 400 == 0 else year % 4 == 0

/-- The astronomical year used by `time::julian_day`: January and February
count as months 13 and 14 of the prior year (the `let (y, m) = ...` in the
source). The subtraction `date.year - 1` is performed on the `i16` field,
so it wraps at `year = -32768`. -/
def astro_year (year : ℤ) (month : Month) : ℤ :=
  if month.num = 1 ∨ month.num = 2 then wrapI16 (year - 1) else year

/-- The astronomical month used by `time::julian_day` (months 3..14). -/
def astro_month (month : Month) : ℤ :=
  if month.num = 1 ∨ month.num = 2 then month.num + 12 else month.num

/-- `time::julian_day`: Julian day of a `Date`. -/
def julian_day (date : Date) : ℚ :=
  let y : ℤ := astro_year date.year date.month
  let m : ℤ := astro_month date.month
  let a : ℤ := ⌊(y : ℚ) / 100⌋
  let b : ℚ :=
    match date.cal_type with
    | .gregorian => 2 - (a : ℚ) + ((⌊(a : ℚ) / 4⌋ : ℤ) : ℚ)
    | .julian => 0
  ((⌊(365.25 : ℚ) * ((y : ℚ) + 4716)⌋ : ℤ) : ℚ)
    + ((⌊(30.6001 : ℚ) * ((m : ℚ) + 1)⌋ : ℤ) : ℚ)
    + date.decimal_day + b - 1524.5

/-- The Gregorian-correction computation of `time::date_from_julian_day`
(the `else` branch computing `alpha` and the corrected `a`). -/
def dfjdGregCorrection (z : ℤ) : ℤ :=
  let alpha : ℤ := ⌊((z : ℚ) - 1867216.25) / 36524.25⌋
  z + 1 + alpha - ⌊((alpha : ℤ) : ℚ) / 4⌋

/-- The year-selection tail of `time::date_from_julian_day`: from the
intermediate `c` and the final `month`, produce the year and the result,
or fail on the internal-consistency branch. -/
def dfjdYear (c month : ℤ) (day : ℚ) : DateResult :=
  if 2 < month then .ok (wrapI16 (c - 4716)) (wrapU8 month) day
  else if month = 1 ∨ month = 2 then .ok (wrapI16 (c - 4715)) (wrapU8 month) day
  else .err .internalError

/-- The core of `time::date_from_julian_day` after the calendar-system
selection: `a` is either `z` (Julian arithmetic) or the Gregorian-corrected
value. -/
def dfjdFromA (a : ℤ) (f : ℚ) : DateResult :=
  let b : ℤ := a + 1524
  let c : ℤ := ⌊(((b : ℤ) : ℚ) - 122.1) / 365.25⌋
  let d : ℤ := ⌊(365.25 : ℚ) * ((c : ℤ) : ℚ)⌋
  let e : ℤ := ⌊(((b - d : ℤ) : ℚ)) / 30.6001⌋
  let day : ℚ := ((b - d : ℤ) : ℚ) - ((⌊(30.6001 : ℚ) * ((e : ℤ) : ℚ)⌋ : ℤ) : ℚ) + f
  if e < 14 then dfjdYear c (e - 1) day
  else if e = 14 ∨ e = 15 then dfjdYear c (e - 13) day
  else .err .internalError

/-- The calendar-system switch plus core of `time::date_from_julian_day`,
operating on the integer part `z` and fractional part `f` of `jd + 0.5`. -/
def dfjdFromZF (z : ℤ) (f : ℚ) : DateResult :=
  let a : ℤ := if z < 2299161 then z else dfjdGregCorrection z
  dfjdFromA a f

/-- `time::date_from_julian_day`: year, month and decimal day equivalent to
a given Julian day; fails on negative input. -/
def date_from_julian_day (jd0 : ℚ) : DateResult :=
  if jd0 < 0 then .err .negativeInput
  else
    let jd : ℚ := jd0 + 0.5
    let z : ℤ := ratTrunc jd
    let f : ℚ := jd - (z : ℚ)
    dfjdFromZF z f

/-- Variant of `date_from_julian_day` that always uses the Julian-calendar
arithmetic (`a = z`, the first branch of the source's switch); used to state
which arithmetic the switch selects. -/
def date_from_julian_day_julianOnly (jd0 : ℚ) : DateResult :=
  if jd0 < 0 then .err .negativeInput
  else
    let jd : ℚ := jd0 + 0.5
    let z : ℤ := ratTrunc jd
    let f : ℚ := jd - (z : ℚ)
    dfjdFromA z f

/-- Variant of `date_from_julian_day` that always uses the Gregorian-calendar
arithmetic (the corrected `a`, the second branch of the source's switch). -/
def date_from_julian_day_gregorianOnly (jd0 : ℚ) : DateResult :=
  if jd0 < 0 then .err .negativeInput
  else
    let jd : ℚ := jd0 + 0.5
    let z : ℤ := ratTrunc jd
    let f : ℚ := jd - (z : ℚ)
    dfjdFromA (dfjdGregCorrection z) f

/-- The Julian day computed by `time::weekday_from_date` for its input: the
date with `decimal_day` truncated (0:00 UT) and calendar type forced to
Gregorian. -/
def jd0UT (date : Date) : ℚ :=
  julian_day ⟨date.year, date.month, ((⌊date.decimal_day⌋ : ℤ) : ℚ), .gregorian⟩

/-- The final `match wd` of `time::weekday_from_date`; the catch-all branch
aborts in the source and is modelled as `none`. -/
def weekdayFromI64 (wd : ℤ) : Option Weekday :=
  if wd = 0 then some .sunday
  else if wd = 1 then some .monday
  else if wd = 2 then some .tuesday
  else if wd = 3 then some .wednesday
  else if wd = 4 then some .thursday
  else if wd = 5 then some .friday
  else if wd = 6 then some .saturday
  else none

/-- `time::weekday_from_date`: `(jd + 1.5) as i64 % 7` mapped to a weekday. -/
def weekday_from_date (date : Date) : Option Weekday :=
  weekdayFromI64 ((ratTrunc (jd0UT date + 1.5)).tmod 7)

/-- `time::decimal_year`: decimal year of a `Date`, accumulating month
lengths with the leap-day adjustment applied inside the `month > 2` test. -/
def decimal_year (date : Date) : ℚ :=
  let month : ℤ := date.month.num
  let y : ℤ :=
    (if 1 < month then 31 else 0)
    + (if 2 < month then (if is_leap_year date.year date.cal_type then 29 else 28) else 0)
    + (if 3 < month then 31 else 0)
    + (if 4 < month then 30 else 0)
    + (if 5 < month then 31 else 0)
    + (if 6 < month then 30 else 0)
    + (if 7 < month then 31 else 0)
    + (if 8 < month then 31 else 0)
    + (if 9 < month then 30 else 0)
    + (if 10 < month then 31 else 0)
    + (if 11 < month then 30 else 0)
  let days : ℚ :=
    if 2 < month ∧ is_leap_year date.year date.cal_type then 366 else 365
  (date.year : ℚ) + (((y : ℤ) : ℚ) + date.decimal_day) / days

/-- Length of a month in the given year and calendar, read off from the
month-length table accumulated by `time::decimal_year` (31, 28/29, 31, 30,
31, 30, 31, 31, 30, 31, 30, 31). -/
def month_length (year : ℤ) (cal_type : CalType) : Month → ℤ
  | .jan => 31
  | .feb => if is_leap_year year cal_type then 29 else 28
  | .mar => 31
  | .apr => 30
  | .may => 31
  | .june => 30
  | .july => 31
  | .aug => 31
  | .sept => 30
  | .oct => 31
  | .nov => 30
  | .dec => 31

/-- Branch of `time::delta_t` for `y < -500`. -/
def dtBranch1 (y : ℚ) : ℚ :=
  let u : ℚ := (y - 1820) / 100
  32 * u * u - 20

/-- Branch of `time::delta_t` for `-500 ≤ y < 500`. -/
def dtBranch2 (y : ℚ) : ℚ :=
  let u : ℚ := y / 100
  10583.6 - u * (1014.41 + u * (33.78311
    + u * (5.952053 - u * (0.1798452 - u * (0.022174192 - u * 0.0090316521)))))

/-- Branch of `time::delta_t` for `500 ≤ y < 1600`. -/
def dtBranch3 (y : ℚ) : ℚ :=
  let u : ℚ := (y - 1000) / 100
  1574.2 - u * (556.01 - u * (71.23472
    + u * (0.319781 - u * (0.8503463 + u * (0.005050998 - u * 0.0083572073)))))

/-- Branch of `time::delta_t` for `1600 ≤ y < 1700`. -/
def dtBranch4 (y : ℚ) : ℚ :=
  let u : ℚ := y - 1600
  120 - u * (0.9808 + u * (0.01532 - u / 7129))

/-- Branch of `time::delta_t` for `1700 ≤ y < 1800`. -/
def dtBranch5 (y : ℚ) : ℚ :=
  let u : ℚ := y - 1700
  8.83 + u * (0.1603 - u * (0.0059285 - u * (0.00013336 + u / 1174000)))

/-- Branch of `time::delta_t` for `1800 ≤ y < 1860`. -/
def dtBranch6 (y : ℚ) : ℚ :=
  let u : ℚ := y - 1800
  13.72 - u * (0.332447 - u * (0.0068612 + u * (0.0041116
    - u * (0.00037436 - u * (0.0000121272 + u * (0.0000001699 - u * 0.000000000875))))))

/-- Branch of `time::delta_t` for `1860 ≤ y < 1900`. -/
def dtBranch7 (y : ℚ) : ℚ :=
  let u : ℚ := y - 1860
  7.62 + u * (0.5737 - u * (0.251754 - u * (0.01680668 - u * (0.0004473624 + u / 233174))))

/-- Branch of `time::delta_t` for `1900 ≤ y < 1920`. -/
def dtBranch8 (y : ℚ) : ℚ :=
  let u : ℚ := y - 1900;
  -2.79 + u * (1.494119 - u * (0.0598939 - u * (0.0061966 + u * 0.000197)))

/-- Branch of `time::delta_t` for `1920 ≤ y < 1941`. -/
def dtBranch9 (y : ℚ) : ℚ :=
  let u : ℚ := y - 1920
  21.20 + u * (0.84493 - u * (0.076100 - u * 0.0020936))

/-- Branch of `time::delta_t` for `1941 ≤ y < 1961`. -/
def dtBranch10 (y : ℚ) : ℚ :=
  let u : ℚ := y - 1950
  29.07 + u * (0.407 - u * ((1 / 233) - u / 2547))

/-- Branch of `time::delta_t` for `1961 ≤ y < 1986`. -/
def dtBranch11 (y : ℚ) : ℚ :=
  let u : ℚ := y - 1975
  45.45 + u * (1.067 - u * ((1 / 260) + u / 718))

/-- Branch of `time::delta_t` for `1986 ≤ y < 2005`. -/
def dtBranch12 (y : ℚ) : ℚ :=
  let u : ℚ := y - 2000
  63.86 + u * (0.3345 - u * (0.060374 - u * (0.0017275 + u * (0.000651814 + u * 0.00002373599))))

/-- Branch of `time::delta_t` for `2005 ≤ y < 2050`. -/
def dtBranch13 (y : ℚ) : ℚ :=
  let u : ℚ := y - 2000
  62.92 + u * (0.32217 + u * 0.005589)

/-- Branch of `time::delta_t` for `2050 ≤ y ≤ 2150`. -/
def dtBranch14 (y : ℚ) : ℚ :=
  let u : ℚ := (y - 1820) / 100
  32 * u * u - 20 - 0.5628 * (2150 - y)

/-- Branch of `time::delta_t` for `y > 2150`. -/
def dtBranch15 (y : ℚ) : ℚ :=
  let u : ℚ := (y - 1820) / 100
  32 * u * u - 20

/-- The branch polynomials of `time::delta_t`, in the order their guards are
tested in the source. -/
def dtBranchList : List (ℚ → ℚ) :=
  [dtBranch1, dtBranch2, dtBranch3, dtBranch4, dtBranch5, dtBranch6, dtBranch7,
   dtBranch8, dtBranch9, dtBranch10, dtBranch11, dtBranch12, dtBranch13,
   dtBranch14, dtBranch15]

/-- The guard chain of `time::delta_t`, dispatching on the decimal year
(the trailing `0.0` is the source's unreachable fallthrough value). -/
def deltaTOfY (y : ℚ) : ℚ :=
  if y < -500 then dtBranch1 y
  else if y < 500 then dtBranch2 y
  else if y < 1600 then dtBranch3 y
  else if y < 1700 then dtBranch4 y
  else if y < 1800 then dtBranch5 y
  else if y < 1860 then dtBranch6 y
  else if y < 1900 then dtBranch7 y
  else if y < 1920 then dtBranch8 y
  else if y < 1941 then dtBranch9 y
  else if y < 1961 then dtBranch10 y
  else if y < 1986 then dtBranch11 y
  else if y < 2005 then dtBranch12 y
  else if y < 2050 then dtBranch13 y
  else if y ≤ 2150 then dtBranch14 y
  else if 2150 < y then dtBranch15 y
  else 0

/-- `time::delta_t`: approximate ΔT for a year and month, keyed on the
decimal year `year + (month - 0.5) / 12`. -/
def delta_t (year : ℤ) (month : ℕ) : ℚ :=
  deltaTOfY ((year : ℚ) + ((month : ℚ) - 0.5) / 12)

/-- Two-argument arctangent with the standard (IEEE `f64::atan2`) quadrant
conventions, used to model the `.atan2(...)` calls of `src/coordinate.rs`. -/
noncomputable def atan2 (y x : ℝ) : ℝ :=
  if 0 < x then Real.arctan (y / x)
  else if x < 0 then
    (if 0 ≤ y then Real.arctan (y / x) + Real.pi else Real.arctan (y / x) - Real.pi)
  else if 0 < y then Real.pi / 2
  else if y < 0 then -(Real.pi / 2)
  else 0

/-- `coordinate::ecliptic_long_from_eq`: ecliptic longitude from equatorial
coordinates. -/
noncomputable def ecliptic_long_from_eq (asc dec oblq_eclip : ℝ) : ℝ :=
  atan2 (Real.sin asc * Real.cos oblq_eclip + Real.tan dec * Real.sin oblq_eclip)
    (Real.cos asc)

/-- `coordinate::ecliptic_lat_from_eq`: ecliptic latitude from equatorial
coordinates. -/
noncomputable def ecliptic_lat_from_eq (asc dec oblq_eclip : ℝ) : ℝ :=
  Real.arcsin
    (Real.sin dec * Real.cos oblq_eclip - Real.cos dec * Real.sin oblq_eclip * Real.sin asc)

/-- `coordinate::asc_from_ecliptic`: right ascension from ecliptic
coordinates. -/
noncomputable def asc_from_ecliptic (ecl_long ecl_lat oblq_eclip : ℝ) : ℝ :=
  atan2 (Real.sin ecl_long * Real.cos oblq_eclip - Real.tan ecl_lat * Real.sin oblq_eclip)
    (Real.cos ecl_long)

/-- `coordinate::dec_from_ecliptic`: declination from ecliptic
coordinates. -/
noncomputable def dec_from_ecliptic (ecl_long ecl_lat oblq_eclip : ℝ) : ℝ :=
  Real.arcsin
    (Real.sin ecl_lat * Real.cos oblq_eclip
      + Real.cos ecl_lat * Real.sin oblq_eclip * Real.sin ecl_long)

/-- `coordinate::dec_from_horizontal`: declination from local horizontal
coordinates, exactly as written in the source (note the repeated
`az.cos()` factor). -/
noncomputable def dec_from_horizontal (az alt observer_lat : ℝ) : ℝ :=
  Real.arcsin
    (Real.sin observer_lat * Real.sin alt
      - Real.cos observer_lat * Real.cos az * Real.cos az)

/-- Modelled from the spec: the textbook spherical-trigonometry declination
inverse, with `cos(alt) * cos(az)` where the source has `cos(az) * cos(az)`;
stated only to compare against `dec_from_horizontal`. -/
noncomputable def dec_from_horizontal_textbook (az alt observer_lat : ℝ) : ℝ :=
  Real.arcsin
    (Real.sin observer_lat * Real.sin alt
      - Real.cos observer_lat * Real.cos alt * Real.cos az)

/-- The J2000 mean obliquity 23.4392911 degrees, in radians: the obliquity
value at which the equatorial-ecliptic round trip is stated. -/
noncomputable def oblqJ2000 : ℝ := 23.4392911 * Real.pi / 180

/-! ### Bridge lemmas between rational floors and integer Euclidean division -/

lemma floor_cast_div (p q : ℤ) (hq : 0 < q) : ⌊(p : ℚ) / (q : ℚ)⌋ = p / q := by
  have hq0 : (0 : ℚ) < (q : ℚ) := by exact_mod_cast hq
  have hsplit : ((p : ℚ)) = (q : ℚ) * ((p / q : ℤ) : ℚ) + ((p % q : ℤ) : ℚ) := by
    exact_mod_cast congrArg (fun n : ℤ => (n : ℚ)) (Int.ediv_add_emod p q).symm
  have hr0 : (0 : ℚ) ≤ ((p % q : ℤ) : ℚ) := by
    exact_mod_cast Int.emod_nonneg p (by omega)
  have hr1 : ((p % q : ℤ) : ℚ) < (q : ℚ) := by
    exact_mod_cast Int.emod_lt_of_pos p hq
  rw [Int.floor_eq_iff]
  constructor
  · rw [le_div_iff₀ hq0]
    nlinarith
  · rw [div_lt_iff₀ hq0]
    nlinarith

lemma ratTrunc_intCast (n : ℤ) : ratTrunc ((n : ℚ)) = n := by
  unfold ratTrunc
  split
  · rw [← Int.cast_neg, Int.floor_intCast]
    omega
  · exact Int.floor_intCast n

lemma ratTrunc_eq_floor {q : ℚ} (h : 0 ≤ q) : ratTrunc q = ⌊q⌋ := by
  unfold ratTrunc
  rw [if_neg (not_lt.mpr h)]

lemma floor_36525 (t : ℤ) : ⌊(365.25 : ℚ) * ((t : ℤ) : ℚ)⌋ = 365 * t + t / 4 := by
  have h1 : (365.25 : ℚ) * ((t : ℤ) : ℚ) = ((1461 * t : ℤ) : ℚ) / ((4 : ℤ) : ℚ) := by
    push_cast
    ring_nf
  rw [h1, floor_cast_div _ _ (by norm_num)]
  omega

lemma floor_sub_1221_div (b : ℤ) :
    ⌊(((b : ℤ) : ℚ) - 122.1) / 365.25⌋ = (20 * b - 2442) / 7305 := by
  have h1 : (((b : ℤ) : ℚ) - 122.1) / 365.25 = ((20 * b - 2442 : ℤ) : ℚ) / ((7305 : ℤ) : ℚ) := by
    rw [div_eq_div_iff (by norm_num) (by norm_num)]
    push_cast
    ring_nf
  rw [h1, floor_cast_div _ _ (by norm_num)]

lemma floor_div_306001 (k : ℤ) :
    ⌊((k : ℤ) : ℚ) / 30.6001⌋ = (10000 * k) / 306001 := by
  have h1 : ((k : ℤ) : ℚ) / 30.6001 = ((10000 * k : ℤ) : ℚ) / ((306001 : ℤ) : ℚ) := by
    rw [div_eq_div_iff (by norm_num) (by norm_num)]
    push_cast
    ring
  rw [h1, floor_cast_div _ _ (by norm_num)]

lemma floor_3060 (e : ℤ) :
    ⌊(30.6001 : ℚ) * ((e : ℤ) : ℚ)⌋ = (306001 * e) / 10000 := by
  have h1 : (30.6001 : ℚ) * ((e : ℤ) : ℚ) = ((306001 * e : ℤ) : ℚ) / ((10000 : ℤ) : ℚ) := by
    push_cast
    ring_nf
  rw [h1, floor_cast_div _ _ (by norm_num)]

lemma floor_div_100 (y : ℤ) : ⌊((y : ℤ) : ℚ) / 100⌋ = y / 100 := by
  have h1 : ((y : ℤ) : ℚ) / 100 = ((y : ℤ) : ℚ) / ((100 : ℤ) : ℚ) := by norm_num
  rw [h1, floor_cast_div _ _ (by norm_num)]

lemma floor_div_4 (y : ℤ) : ⌊((y : ℤ) : ℚ) / 4⌋ = y / 4 := by
  have h1 : ((y : ℤ) : ℚ) / 4 = ((y : ℤ) : ℚ) / ((4 : ℤ) : ℚ) := by norm_num
  rw [h1, floor_cast_div _ _ (by norm_num)]

lemma floor_alpha (z : ℤ) :
    ⌊((z : ℚ) - 1867216.25) / 36524.25⌋ = (4 * z - 7468865) / 146097 := by
  have h1 : ((z : ℚ) - 1867216.25) / 36524.25
      = ((4 * z - 7468865 : ℤ) : ℚ) / ((146097 : ℤ) : ℚ) := by
    rw [div_eq_div_iff (by norm_num) (by norm_num)]
    push_cast
    ring_nf
  rw [h1, floor_cast_div _ _ (by norm_num)]

/-- Closed form of `julian_day` for a Gregorian date: an integer part plus
`decimal_day - 0.5`. -/
lemma julian_day_gregorian_eq (Y : ℤ) (M : Month) (D : ℚ) :
    julian_day ⟨Y, M, D, .gregorian⟩
      = ((365 * (astro_year Y M + 4716) + (astro_year Y M + 4716) / 4
          + 306001 * (astro_month M + 1) / 10000
          - astro_year Y M / 100 + astro_year Y M / 100 / 4 - 1522 : ℤ) : ℚ)
        + D - 0.5 := by
  simp only [julian_day]
  rw [show ((astro_year Y M : ℤ) : ℚ) + 4716 = ((astro_year Y M + 4716 : ℤ) : ℚ) by
    push_cast; ring]
  rw [floor_36525]
  rw [show ((astro_month M : ℤ) : ℚ) + 1 = ((astro_month M + 1 : ℤ) : ℚ) by
    push_cast; ring]
  rw [floor_3060, floor_div_100, floor_div_4]
  push_cast
  ring

/-- `date_from_julian_day` at an input of the form `N - 0.5`: the integer
part of `jd + 0.5` is `N` and the fractional part is zero. -/
lemma dfjd_at_half (N : ℤ) (hN : 1 ≤ N) :
    date_from_julian_day ((N : ℚ) - 0.5) = dfjdFromZF N 0 := by
  have hN1 : (1 : ℚ) ≤ (N : ℚ) := by exact_mod_cast hN
  have h0 : ¬ ((N : ℚ) - 0.5 < 0) := by
    rw [not_lt]
    linarith
  simp only [date_from_julian_day]
  rw [if_neg h0]
  rw [show (N : ℚ) - 0.5 + 0.5 = ((N : ℤ) : ℚ) by ring]
  rw [ratTrunc_intCast, sub_self]

/-! ### The reconstruction core never fails -/

lemma dfjdFromA_ok (a : ℤ) (f : ℚ) :
    ∃ y m d, dfjdFromA a f = .ok y m d ∧ 1 ≤ m ∧ m ≤ 12 := by
  simp only [dfjdFromA]
  rw [floor_sub_1221_div (a + 1524)]
  rw [floor_36525 ((20 * (a + 1524) - 2442) / 7305)]
  rw [show a + 1524 - (365 * ((20 * (a + 1524) - 2442) / 7305)
        + ((20 * (a + 1524) - 2442) / 7305) / 4)
      = (a + 1524 - (365 * ((20 * (a + 1524) - 2442) / 7305)
        + ((20 * (a + 1524) - 2442) / 7305) / 4) : ℤ) from rfl]
  rw [floor_div_306001]
  set c : ℤ := (20 * (a + 1524) - 2442) / 7305 with hc
  set k : ℤ := a + 1524 - (365 * c + c / 4) with hk
  set e : ℤ := (10000 * k) / 306001 with he
  have hkb : 123 ≤ k ∧ k ≤ 488 := by omega
  have heb : 4 ≤ e ∧ e ≤ 15 := by omega
  rcases lt_or_ge e 14 with h14 | h14
  · rw [if_pos h14]
    unfold dfjdYear
    rw [if_pos (by omega : 2 < e - 1)]
    have hw : wrapU8 (e - 1) = e - 1 := by unfold wrapU8; omega
    rw [hw]
    exact ⟨_, _, _, rfl, by omega, by omega⟩
  · rw [if_neg (not_lt.mpr h14), if_pos (by omega : e = 14 ∨ e = 15)]
    unfold dfjdYear
    rw [if_neg (by omega : ¬ 2 < e - 13), if_pos (by omega : e - 13 = 1 ∨ e - 13 = 2)]
    have hw : wrapU8 (e - 13) = e - 13 := by unfold wrapU8; omega
    rw [hw]
    exact ⟨_, _, _, rfl, by omega, by omega⟩

lemma dfjdFromA_ne_negative (a : ℤ) (f : ℚ) :
    dfjdFromA a f ≠ .err .negativeInput := by
  obtain ⟨y, m, d, hok, -, -⟩ := dfjdFromA_ok a f
  rw [hok]
  exact fun hcon => DateResult.noConfusion hcon

/-- C3. `date_from_julian_day` returns the negative-input error exactly when
its argument is negative; for nonnegative input that error is never
produced (failure is a returned value, there is no abort path). -/
theorem c3_negative_input_iff (jd : ℚ) :
    date_from_julian_day jd = .err .negativeInput ↔ jd < 0 := by
  constructor
  · intro h
    by_contra hn
    simp only [date_from_julian_day, if_neg hn, dfjdFromZF] at h
    exact dfjdFromA_ne_negative _ _ h
  · intro h
    simp only [date_from_julian_day, if_pos h]

/-- C4. For every nonnegative Julian day the internal-consistency branches
of `date_from_julian_day` are unreachable: the function returns `ok` with a
final month between 1 and 12 inclusive. -/
theorem c4_internal_branches_unreachable (jd : ℚ) (h : 0 ≤ jd) :
    ∃ y m d, date_from_julian_day jd = .ok y m d ∧ 1 ≤ m ∧ m ≤ 12 := by
  simp only [date_from_julian_day, if_neg (not_lt.mpr h), dfjdFromZF]
  exact dfjdFromA_ok _ _

/-- Witness for C4 at `jd = 0`. -/
theorem c4_internal_branches_unreachable_witness :
    (0 : ℚ) ≤ 0 ∧ ∃ y m d, date_from_julian_day 0 = .ok y m d ∧ 1 ≤ m ∧ m ≤ 12 :=
  ⟨le_refl 0, c4_internal_branches_unreachable 0 (le_refl 0)⟩

/-! ### C2: the calendar-system switch -/

/-- C2 (amended). The switch tests `trunc(jd + 0.5) < 2299161`, so on
nonnegative inputs `date_from_julian_day` computes with Julian-calendar
arithmetic exactly when `jd < 2299160.5` and with Gregorian-calendar
arithmetic exactly when `jd ≥ 2299160.5`; the selection depends only on the
input value. -/
theorem c2_switch_threshold :
    (∀ jd : ℚ, 0 ≤ jd → jd < 2299160.5 →
      date_from_julian_day jd = date_from_julian_day_julianOnly jd) ∧
    (∀ jd : ℚ, 2299160.5 ≤ jd →
      date_from_julian_day jd = date_from_julian_day_gregorianOnly jd) := by
  constructor
  · intro jd h0 h1
    have h0n : ¬ jd < 0 := not_lt.mpr h0
    have hz : ratTrunc (jd + 0.5) < 2299161 := by
      rw [ratTrunc_eq_floor (by linarith), Int.floor_lt]
      push_cast
      linarith
    simp only [date_from_julian_day, date_from_julian_day_julianOnly, dfjdFromZF]
    rw [if_neg h0n, if_neg h0n, if_pos hz]
  · intro jd h1
    have h0n : ¬ jd < 0 := not_lt.mpr (le_trans (by norm_num) h1)
    have hz : ¬ ratTrunc (jd + 0.5) < 2299161 := by
      rw [ratTrunc_eq_floor (by linarith), not_lt, Int.le_floor]
      push_cast
      linarith
    simp only [date_from_julian_day, date_from_julian_day_gregorianOnly, dfjdFromZF]
    rw [if_neg h0n, if_neg h0n, if_neg hz]

/-- Witness for C2: the Julian side at `jd = 0`, the Gregorian side at
`jd = 2451545`. -/
theorem c2_switch_threshold_witness :
    date_from_julian_day 0 = date_from_julian_day_julianOnly 0 ∧
    date_from_julian_day 2451545 = date_from_julian_day_gregorianOnly 2451545 :=
  ⟨c2_switch_threshold.1 0 (by norm_num) (by norm_num),
   c2_switch_threshold.2 2451545 (by norm_num)⟩

/-- Counterexample to C2 as stated: the input `jd = 2299160.5` is strictly
below 2299161 and nonnegative, yet `date_from_julian_day` computes the
Gregorian-arithmetic result 1582-10-15, not the Julian-arithmetic result
1582-10-05. -/
theorem c2_counterexample :
    (2299160.5 : ℚ) < 2299161 ∧ (0 : ℚ) ≤ 2299160.5 ∧
    date_from_julian_day (2299160.5 : ℚ) = .ok 1582 10 15 ∧
    date_from_julian_day_julianOnly (2299160.5 : ℚ) = .ok 1582 10 5 ∧
    date_from_julian_day (2299160.5 : ℚ) ≠ date_from_julian_day_julianOnly (2299160.5 : ℚ) := by
  have h1 : date_from_julian_day (2299160.5 : ℚ) = .ok 1582 10 15 := by
    rw [show (2299160.5 : ℚ) = ((2299161 : ℤ) : ℚ) - 0.5 by norm_num]
    rw [dfjd_at_half 2299161 (by norm_num)]
    simp only [dfjdFromZF]
    rw [if_neg (by decide : ¬ (2299161 : ℤ) < 2299161)]
    rw [show dfjdGregCorrection 2299161 = 2299171 by
      simp only [dfjdGregCorrection]
      rw [floor_alpha, floor_div_4]
      decide]
    simp only [dfjdFromA]
    rw [floor_sub_1221_div, floor_36525, floor_div_306001, floor_3060]
    norm_num [dfjdYear, wrapI16, wrapU8]
  have h2 : date_from_julian_day_julianOnly (2299160.5 : ℚ) = .ok 1582 10 5 := by
    have h0 : ¬ ((2299160.5 : ℚ) < 0) := by norm_num
    simp only [date_from_julian_day_julianOnly]
    rw [if_neg h0]
    rw [show (2299160.5 : ℚ) + 0.5 = ((2299161 : ℤ) : ℚ) by norm_num]
    rw [ratTrunc_intCast, sub_self]
    simp only [dfjdFromA]
    rw [floor_sub_1221_div, floor_36525, floor_div_306001, floor_3060]
    norm_num [dfjdYear, wrapI16, wrapU8]
  refine ⟨by norm_num, by norm_num, h1, h2, ?_⟩
  rw [h1, h2]
  intro hcon
  rw [DateResult.ok.injEq] at hcon
  norm_num at hcon

/-! ### C5: the weekday computation -/

lemma jd0UT_int (date : Date) :
    jd0UT date + 1.5
      = ((⌊(365.25 : ℚ) * ((astro_year date.year date.month : ℚ) + 4716)⌋
          + ⌊(30.6001 : ℚ) * ((astro_month date.month : ℚ) + 1)⌋
          + ⌊date.decimal_day⌋
          + 2 - ⌊(astro_year date.year date.month : ℚ) / 100⌋
          + ⌊((⌊(astro_year date.year date.month : ℚ) / 100⌋ : ℤ) : ℚ) / 4⌋
          - 1523 : ℤ) : ℚ) := by
  simp only [jd0UT, julian_day]
  push_cast
  ring

/-- C5 (amended). On every date whose 0:00 UT Gregorian Julian day satisfies
`jd + 1.5 ≥ 0`, `weekday_from_date` succeeds and returns the weekday numbered
`⌊jd + 1.5⌋ mod 7`, Sunday = 0. -/
theorem c5_weekday_total_after_day_zero (date : Date) (h : 0 ≤ jd0UT date + 1.5) :
    ∃ w, weekday_from_date date = some w ∧ w.num = ⌊jd0UT date + 1.5⌋ % 7 := by
  obtain ⟨K, hK⟩ : ∃ K : ℤ, jd0UT date + 1.5 = (K : ℚ) := ⟨_, jd0UT_int date⟩
  have hK0 : 0 ≤ K := by exact_mod_cast hK ▸ h
  have htr : ratTrunc (jd0UT date + 1.5) = K := by rw [hK, ratTrunc_intCast]
  have hfl : ⌊jd0UT date + 1.5⌋ = K := by rw [hK, Int.floor_intCast]
  have htm : K.tmod 7 = K % 7 := Int.tmod_eq_emod hK0 (by norm_num)
  unfold weekday_from_date
  rw [htr, htm, hfl]
  have h7 : K % 7 = 0 ∨ K % 7 = 1 ∨ K % 7 = 2 ∨ K % 7 = 3 ∨ K % 7 = 4 ∨ K % 7 = 5
      ∨ K % 7 = 6 := by omega
  rcases h7 with h7 | h7 | h7 | h7 | h7 | h7 | h7 <;> rw [h7]
  · exact ⟨.sunday, by decide, by decide⟩
  · exact ⟨.monday, by decide, by decide⟩
  · exact ⟨.tuesday, by decide, by decide⟩
  · exact ⟨.wednesday, by decide, by decide⟩
  · exact ⟨.thursday, by decide, by decide⟩
  · exact ⟨.friday, by decide, by decide⟩
  · exact ⟨.saturday, by decide, by decide⟩

lemma jd0UT_at_2000 : jd0UT ⟨2000, .jan, 1, .gregorian⟩ = ((2451545 : ℤ) : ℚ) - 0.5 := by
  unfold jd0UT
  rw [show ⌊(1 : ℚ)⌋ = (1 : ℤ) from Int.floor_one]
  rw [julian_day_gregorian_eq]
  norm_num [astro_year, astro_month, Month.num, wrapI16]

/-- Witness for C5 at 2000-01-01 (Gregorian). -/
theorem c5_weekday_total_after_day_zero_witness :
    (0 ≤ jd0UT ⟨2000, .jan, 1, .gregorian⟩ + 1.5) ∧
    ∃ w, weekday_from_date ⟨2000, .jan, 1, .gregorian⟩ = some w ∧
      w.num = ⌊jd0UT ⟨2000, .jan, 1, .gregorian⟩ + 1.5⌋ % 7 := by
  have h1 : (0 : ℚ) ≤ jd0UT ⟨2000, .jan, 1, .gregorian⟩ + 1.5 := by
    rw [jd0UT_at_2000]
    norm_num
  exact ⟨h1, c5_weekday_total_after_day_zero _ h1⟩

/-- Counterexample to C5 as stated: for the date -5000-01-01 the Julian day
is negative, the truncated `(jd + 1.5) as i64 % 7` value is -4, and
`weekday_from_date` reaches the aborting catch-all branch instead of
succeeding. -/
theorem c5_counterexample :
    weekday_from_date ⟨-5000, .jan, 1, .gregorian⟩ = none := by
  have hj : jd0UT ⟨-5000, .jan, 1, .gregorian⟩ + 1.5 = ((-105151 : ℤ) : ℚ) := by
    unfold jd0UT
    rw [show ⌊(1 : ℚ)⌋ = (1 : ℤ) from Int.floor_one]
    rw [julian_day_gregorian_eq]
    norm_num [astro_year, astro_month, Month.num, wrapI16]
  unfold weekday_from_date
  rw [hj, ratTrunc_intCast]
  decide

/-! ### C6: structure of the forward conversion -/

/-- Closed form of `julian_day` for a Julian-calendar date. -/
lemma julian_day_julian_eq (Y : ℤ) (M : Month) (D : ℚ) :
    julian_day ⟨Y, M, D, .julian⟩
      = ((365 * (astro_year Y M + 4716) + (astro_year Y M + 4716) / 4
          + 306001 * (astro_month M + 1) / 10000 - 1524 : ℤ) : ℚ)
        + D - 0.5 := by
  simp only [julian_day]
  rw [show ((astro_year Y M : ℤ) : ℚ) + 4716 = ((astro_year Y M + 4716 : ℤ) : ℚ) by
    push_cast; ring]
  rw [floor_36525]
  rw [show ((astro_month M : ℤ) : ℚ) + 1 = ((astro_month M + 1 : ℤ) : ℚ) by
    push_cast; ring]
  rw [floor_3060]
  push_cast
  ring

/-- C6 (amended). The forward conversion treats January and February as
months 13 and 14 of the prior year whenever the `i16` subtraction
`date.year - 1` does not wrap, i.e. for every year with `-32768 < Y ≤ 32768`
(so January of year Y sits exactly 31 days, and February exactly 62 days,
after December 1 of year Y-1 at equal day numbers); the Gregorian variant
differs from the Julian variant by exactly the century correction
`2 - a + ⌊a/4⌋` with `a = ⌊y/100⌋` of the shifted year, for every input; and
the function is total, every input producing one rational. -/
theorem c6_forward_structure :
    (∀ (Y : ℤ) (D : ℚ) (ct : CalType), -32768 < Y → Y ≤ 32768 →
      julian_day ⟨Y, .jan, D, ct⟩ = julian_day ⟨Y - 1, .dec, D, ct⟩ + 31) ∧
    (∀ (Y : ℤ) (D : ℚ) (ct : CalType), -32768 < Y → Y ≤ 32768 →
      julian_day ⟨Y, .feb, D, ct⟩ = julian_day ⟨Y - 1, .dec, D, ct⟩ + 62) ∧
    (∀ (Y : ℤ) (M : Month) (D : ℚ),
      julian_day ⟨Y, M, D, .gregorian⟩
        = julian_day ⟨Y, M, D, .julian⟩ + 2
          - ((⌊((astro_year Y M : ℤ) : ℚ) / 100⌋ : ℤ) : ℚ)
          + ((⌊((⌊((astro_year Y M : ℤ) : ℚ) / 100⌋ : ℤ) : ℚ) / 4⌋ : ℤ) : ℚ)) := by
  refine ⟨?_, ?_, ?_⟩
  · intro Y D ct h1 h2
    have hw : wrapI16 (Y - 1) = Y - 1 := by
      unfold wrapI16
      omega
    cases ct
    · rw [julian_day_gregorian_eq, julian_day_gregorian_eq]
      simp only [astro_year, astro_month, Month.num]
      norm_num [hw]
      ring
    · rw [julian_day_julian_eq, julian_day_julian_eq]
      simp only [astro_year, astro_month, Month.num]
      norm_num [hw]
      ring
  · intro Y D ct h1 h2
    have hw : wrapI16 (Y - 1) = Y - 1 := by
      unfold wrapI16
      omega
    cases ct
    · rw [julian_day_gregorian_eq, julian_day_gregorian_eq]
      simp only [astro_year, astro_month, Month.num]
      norm_num [hw]
      ring
    · rw [julian_day_julian_eq, julian_day_julian_eq]
      simp only [astro_year, astro_month, Month.num]
      norm_num [hw]
      ring
  · intro Y M D
    rw [floor_div_100, floor_div_4, julian_day_gregorian_eq, julian_day_julian_eq]
    push_cast
    ring

/-- Witness for C6 at year 1999 (January 1999 against December 1998). -/
theorem c6_forward_structure_witness :
    ((-32768 : ℤ) < 1999 ∧ (1999 : ℤ) ≤ 32768) ∧
    julian_day ⟨1999, .jan, 1, .gregorian⟩ = julian_day ⟨1999 - 1, .dec, 1, .gregorian⟩ + 31 :=
  ⟨⟨by norm_num, by norm_num⟩,
   c6_forward_structure.1 1999 1 .gregorian (by norm_num) (by norm_num)⟩

/-- Counterexample to C6 as stated: at `year = -32768` with January, the
`i16` subtraction `date.year - 1` wraps to 32767, so the forward conversion
does not use the prior year -32769 and the 31-day December offset fails. -/
theorem c6_counterexample :
    astro_year (-32768) .jan = 32767 ∧
    julian_day ⟨-32768, .jan, 1, .julian⟩
      ≠ julian_day ⟨-32768 - 1, .dec, 1, .julian⟩ + 31 := by
  constructor
  · norm_num [astro_year, Month.num, wrapI16]
  · rw [julian_day_julian_eq, julian_day_julian_eq]
    norm_num [astro_year, astro_month, Month.num, wrapI16]

/-! ### C7: the branch structure of delta_t -/

/-- C7 (amended). `delta_t` is keyed on the decimal year
`year + (month - 0.5)/12` and dispatches over 15 branch polynomials with
thresholds -500, 500, 1600, 1700, 1800, 1860, 1900, 1920, 1941, 1961, 1986,
2005, 2050, 2150 tested in that order; each boundary is half-open on the
upper side except the last, where the `y ≤ 2150` branch closes the interval
and agrees with the final branch at exactly 2150; both tails are the same
polynomial `32 u^2 - 20` in `u = (y - 1820)/100`. -/
theorem c7_delta_t_branches :
    (∀ (year : ℤ) (month : ℕ),
      delta_t year month = deltaTOfY ((year : ℚ) + ((month : ℚ) - 0.5) / 12)) ∧
    (∀ q : ℚ, q < -500 →
      deltaTOfY q = 32 * ((q - 1820) / 100) * ((q - 1820) / 100) - 20) ∧
    (∀ q : ℚ, -500 ≤ q → q < 500 → deltaTOfY q = dtBranch2 q) ∧
    (∀ q : ℚ, 500 ≤ q → q < 1600 → deltaTOfY q = dtBranch3 q) ∧
    (∀ q : ℚ, 1600 ≤ q → q < 1700 → deltaTOfY q = dtBranch4 q) ∧
    (∀ q : ℚ, 1700 ≤ q → q < 1800 → deltaTOfY q = dtBranch5 q) ∧
    (∀ q : ℚ, 1800 ≤ q → q < 1860 → deltaTOfY q = dtBranch6 q) ∧
    (∀ q : ℚ, 1860 ≤ q → q < 1900 → deltaTOfY q = dtBranch7 q) ∧
    (∀ q : ℚ, 1900 ≤ q → q < 1920 → deltaTOfY q = dtBranch8 q) ∧
    (∀ q : ℚ, 1920 ≤ q → q < 1941 → deltaTOfY q = dtBranch9 q) ∧
    (∀ q : ℚ, 1941 ≤ q → q < 1961 → deltaTOfY q = dtBranch10 q) ∧
    (∀ q : ℚ, 1961 ≤ q → q < 1986 → deltaTOfY q = dtBranch11 q) ∧
    (∀ q : ℚ, 1986 ≤ q → q < 2005 → deltaTOfY q = dtBranch12 q) ∧
    (∀ q : ℚ, 2005 ≤ q → q < 2050 → deltaTOfY q = dtBranch13 q) ∧
    (∀ q : ℚ, 2050 ≤ q → q ≤ 2150 → deltaTOfY q = dtBranch14 q) ∧
    (∀ q : ℚ, 2150 < q →
      deltaTOfY q = 32 * ((q - 1820) / 100) * ((q - 1820) / 100) - 20) ∧
    dtBranch14 2150 = dtBranch15 2150 ∧
    (∀ q : ℚ, dtBranch1 q = dtBranch15 q) := by
  refine ⟨fun year month => rfl, ?_, ?_, ?_, ?_, ?_, ?_, ?_, ?_, ?_, ?_, ?_, ?_, ?_, ?_,
    ?_, ?_, fun q => rfl⟩
  · intro q h1
    simp only [deltaTOfY]
    rw [if_pos h1]
    simp only [dtBranch1]
  · intro q h1 h2
    simp only [deltaTOfY]
    rw [if_neg (by linarith), if_pos h2]
  · intro q h1 h2
    simp only [deltaTOfY]
    rw [if_neg (by linarith), if_neg (by linarith), if_pos h2]
  · intro q h1 h2
    simp only [deltaTOfY]
    rw [if_neg (by linarith), if_neg (by linarith), if_neg (by linarith), if_pos h2]
  · intro q h1 h2
    simp only [deltaTOfY]
    rw [if_neg (by linarith), if_neg (by linarith), if_neg (by linarith),
      if_neg (by linarith), if_pos h2]
  · intro q h1 h2
    simp only [deltaTOfY]
    rw [if_neg (by linarith), if_neg (by linarith), if_neg (by linarith),
      if_neg (by linarith), if_neg (by linarith), if_pos h2]
  · intro q h1 h2
    simp only [deltaTOfY]
    rw [if_neg (by linarith), if_neg (by linarith), if_neg (by linarith),
      if_neg (by linarith), if_neg (by linarith), if_neg (by linarith), if_pos h2]
  · intro q h1 h2
    simp only [deltaTOfY]
    rw [if_neg (by linarith), if_neg (by linarith), if_neg (by linarith),
      if_neg (by linarith), if_neg (by linarith), if_neg (by linarith),
      if_neg (by linarith), if_pos h2]
  · intro q h1 h2
    simp only [deltaTOfY]
    rw [if_neg (by linarith), if_neg (by linarith), if_neg (by linarith),
      if_neg (by linarith), if_neg (by linarith), if_neg (by linarith),
      if_neg (by linarith), if_neg (by linarith), if_pos h2]
  · intro q h1 h2
    simp only [deltaTOfY]
    rw [if_neg (by linarith), if_neg (by linarith), if_neg (by linarith),
      if_neg (by linarith), if_neg (by linarith), if_neg (by linarith),
      if_neg (by linarith), if_neg (by linarith), if_neg (by linarith), if_pos h2]
  · intro q h1 h2
    simp only [deltaTOfY]
    rw [if_neg (by linarith), if_neg (by linarith), if_neg (by linarith),
      if_neg (by linarith), if_neg (by linarith), if_neg (by linarith),
      if_neg (by linarith), if_neg (by linarith), if_neg (by linarith),
      if_neg (by linarith), if_pos h2]
  · intro q h1 h2
    simp only [deltaTOfY]
    rw [if_neg (by linarith), if_neg (by linarith), if_neg (by linarith),
      if_neg (by linarith), if_neg (by linarith), if_neg (by linarith),
      if_neg (by linarith), if_neg (by linarith), if_neg (by linarith),
      if_neg (by linarith), if_neg (by linarith), if_pos h2]
  · intro q h1 h2
    simp only [deltaTOfY]
    rw [if_neg (by linarith), if_neg (by linarith), if_neg (by linarith),
      if_neg (by linarith), if_neg (by linarith), if_neg (by linarith),
      if_neg (by linarith), if_neg (by linarith), if_neg (by linarith),
      if_neg (by linarith), if_neg (by linarith), if_neg (by linarith), if_pos h2]
  · intro q h1 h2
    simp only [deltaTOfY]
    rw [if_neg (by linarith), if_neg (by linarith), if_neg (by linarith),
      if_neg (by linarith), if_neg (by linarith), if_neg (by linarith),
      if_neg (by linarith), if_neg (by linarith), if_neg (by linarith),
      if_neg (by linarith), if_neg (by linarith), if_neg (by linarith),
      if_neg (by linarith), if_pos h2]
  · intro q h1
    simp only [deltaTOfY]
    rw [if_neg (by linarith), if_neg (by linarith), if_neg (by linarith),
      if_neg (by linarith), if_neg (by linarith), if_neg (by linarith),
      if_neg (by linarith), if_neg (by linarith), if_neg (by linarith),
      if_neg (by linarith), if_neg (by linarith), if_neg (by linarith),
      if_neg (by linarith), if_neg (by linarith), if_pos h1]
    simp only [dtBranch15]
  · simp only [dtBranch14, dtBranch15]
    norm_num

/-- Witness for C7 instantiating the two tail branches, at decimal years
-600 and 2200. -/
theorem c7_delta_t_branches_witness :
    deltaTOfY (-600 : ℚ)
      = 32 * (((-600 : ℚ) - 1820) / 100) * (((-600 : ℚ) - 1820) / 100) - 20 ∧
    deltaTOfY (2200 : ℚ)
      = 32 * (((2200 : ℚ) - 1820) / 100) * (((2200 : ℚ) - 1820) / 100) - 20 :=
  ⟨c7_delta_t_branches.2.1 (-600) (by norm_num),
   c7_delta_t_branches.2.2.2.2.2.2.2.2.2.2.2.2.2.2.2.1 2200 (by norm_num)⟩

/-- Counterexample to the "17-branch" count in C7: the dispatch of
`delta_t` runs over the 15 branch polynomials of `dtBranchList`, not 17. -/
theorem c7_counterexample :
    dtBranchList.length = 15 ∧ dtBranchList.length ≠ 17 := by
  constructor
  · rfl
  · intro h
    simp only [dtBranchList] at h
    exact absurd h (by decide)

/-! ### C10: the leap-day edge case of decimal_year -/

/-- C10. In a leap year the extra accumulated day and the 366-day year
length apply only to months after February: January and February of a leap
year are converted with a 365-day divisor (and day offsets 0 and 31), while
March already uses the 366-day divisor and the extra day (offset 60). -/
theorem c10_decimal_year_leap_jan_feb (Y : ℤ) (D : ℚ) (ct : CalType)
    (h : is_leap_year Y ct = true) :
    decimal_year ⟨Y, .jan, D, ct⟩ = (Y : ℚ) + (0 + D) / 365 ∧
    decimal_year ⟨Y, .feb, D, ct⟩ = (Y : ℚ) + (31 + D) / 365 ∧
    decimal_year ⟨Y, .mar, D, ct⟩ = (Y : ℚ) + (60 + D) / 366 := by
  refine ⟨?_, ?_, ?_⟩ <;> simp only [decimal_year, Month.num, h] <;> norm_num

/-- Witness for C10 in the Gregorian leap year 2024 with day 1. -/
theorem c10_decimal_year_leap_jan_feb_witness :
    is_leap_year 2024 .gregorian = true ∧
    (decimal_year ⟨2024, .jan, 1, .gregorian⟩ = (2024 : ℚ) + (0 + 1) / 365 ∧
     decimal_year ⟨2024, .feb, 1, .gregorian⟩ = (2024 : ℚ) + (31 + 1) / 365 ∧
     decimal_year ⟨2024, .mar, 1, .gregorian⟩ = (2024 : ℚ) + (60 + 1) / 366) :=
  ⟨by decide, c10_decimal_year_leap_jan_feb 2024 1 .gregorian (by decide)⟩

/-! ### C1: the Gregorian round trip -/

lemma is_leap_year_gregorian_iff (Y : ℤ) :
    is_leap_year Y .gregorian = true
      ↔ (Y % 100 = 0 → Y % 400 = 0) ∧ (Y % 100 ≠ 0 → Y % 4 = 0) := by
  simp only [is_leap_year]
  by_cases h100 : Y % 100 = 0
  · simp [h100]
  · simp [h100]

/-- The Gregorian correction of the reverse conversion undoes the forward
century terms: `alpha` evaluates to `⌊y/100⌋ - 4` on every Julian day number
produced by a calendar-valid forward conversion. -/
lemma alpha_eq (y g D : ℤ) (hg1 : 122 ≤ g) (hg2 : g ≤ 459) (hD1 : 1 ≤ D)
    (hcap : g + D ≤ 487 ∨
      (g + D = 488 ∧ ((y + 1) % 100 = 0 → (y + 1) % 400 = 0)
        ∧ ((y + 1) % 100 ≠ 0 → (y + 1) % 4 = 0))) :
    (4 * (365 * (y + 4716) + (y + 4716) / 4 + g + D - y / 100 + y / 100 / 4 - 1522)
        - 7468865) / 146097
      = y / 100 - 4 := by
  obtain ⟨e, r, hy, hr0, hr1⟩ : ∃ e r, y = 100 * e + r ∧ 0 ≤ r ∧ r < 100 :=
    ⟨y / 100, y % 100, by omega, by omega, by omega⟩
  obtain ⟨u, s, he, hs0, hs1⟩ : ∃ u s, e = 4 * u + s ∧ 0 ≤ s ∧ s < 4 :=
    ⟨e / 4, e % 4, by omega, by omega, by omega⟩
  subst hy he
  rcases hcap with hcap | ⟨hgd, h100, h4⟩
  · omega
  · rcases lt_or_ge r 99 with hr99 | hr99
    · omega
    · have hr : r = 99 := by omega
      subst hr
      have h400 : (100 * (4 * u + s) + 99 + 1) % 400 = 0 := h100 (by omega)
      have hs3 : s = 3 := by omega
      subst hs3
      omega

/-- Core of the round trip: on the Julian day number of a calendar-valid
forward conversion (shifted year `y`, shifted month `m ∈ 3..14`, month term
`g`, day `D`), the reverse computation recovers `c = y + 4716`, `e = m + 1`
and the exact day, landing in `dfjdYear`. -/
lemma c1_core (y m g D : ℤ)
    (hm1 : 3 ≤ m) (hm2 : m ≤ 14)
    (hgdef : 306001 * (m + 1) / 10000 = g)
    (hD1 : 1 ≤ D)
    (hDmax : 10000 * (g + D) < 306001 * (m + 2))
    (hfeb : g + D ≤ 487 ∨
      (g + D = 488 ∧ (y + 4716) % 4 = 3
        ∧ ((y + 1) % 100 = 0 → (y + 1) % 400 = 0)
        ∧ ((y + 1) % 100 ≠ 0 → (y + 1) % 4 = 0)))
    (hN : 2299161 ≤ 365 * (y + 4716) + (y + 4716) / 4 + g + D - y / 100 + y / 100 / 4 - 1522) :
    dfjdFromZF (365 * (y + 4716) + (y + 4716) / 4 + g + D - y / 100 + y / 100 / 4 - 1522) 0
      = dfjdYear (y + 4716) (if m ≤ 12 then m else m - 12) ((D : ℤ) : ℚ) := by
  have hg1 : 122 ≤ g := by omega
  have hg2 : g ≤ 459 := by omega
  simp only [dfjdFromZF]
  rw [if_neg (by omega :
    ¬ 365 * (y + 4716) + (y + 4716) / 4 + g + D - y / 100 + y / 100 / 4 - 1522 < 2299161)]
  have hA : dfjdGregCorrection
      (365 * (y + 4716) + (y + 4716) / 4 + g + D - y / 100 + y / 100 / 4 - 1522)
      = 365 * (y + 4716) + (y + 4716) / 4 + g + D - 1524 := by
    simp only [dfjdGregCorrection]
    rw [floor_alpha, floor_div_4]
    rw [alpha_eq y g D hg1 hg2 hD1 (hfeb.imp id (fun h => ⟨h.1, h.2.2.1, h.2.2.2⟩))]
    omega
  rw [hA]
  simp only [dfjdFromA]
  rw [show 365 * (y + 4716) + (y + 4716) / 4 + g + D - 1524 + 1524
      = 365 * (y + 4716) + (y + 4716) / 4 + g + D from by omega]
  rw [floor_sub_1221_div]
  have hc : (20 * (365 * (y + 4716) + (y + 4716) / 4 + g + D) - 2442) / 7305 = y + 4716 := by
    rcases hfeb with hcap | ⟨hgd, ht4, -, -⟩
    · omega
    · omega
  rw [hc, floor_36525]
  rw [show 365 * (y + 4716) + (y + 4716) / 4 + g + D - (365 * (y + 4716) + (y + 4716) / 4)
      = g + D from by omega]
  rw [floor_div_306001]
  have he : 10000 * (g + D) / 306001 = m + 1 := by omega
  rw [he, floor_3060, hgdef]
  rw [show ((g + D : ℤ) : ℚ) - ((g : ℤ) : ℚ) + 0 = ((D : ℤ) : ℚ) from by push_cast; ring]
  rcases le_or_lt m 12 with hm12 | hm13
  · rw [if_pos (by omega : m + 1 < 14), if_pos hm12, show m + 1 - 1 = m from by omega]
  · rw [if_neg (by omega : ¬ m + 1 < 14), if_pos (by omega : m + 1 = 14 ∨ m + 1 = 15),
      if_neg (not_le.mpr hm13), show m + 1 - 13 = m - 12 from by omega]

/-- Round-trip case for months March through December (no year shift). -/
lemma c1_case_regular (Y m g D : ℤ) (M : Month)
    (hMnum : M.num = m) (hay : astro_year Y M = Y) (ham : astro_month M = m)
    (hm1 : 3 ≤ m) (hm2 : m ≤ 12)
    (hgdef : 306001 * (m + 1) / 10000 = g)
    (hD1 : 1 ≤ D) (hDcap : g + D ≤ 487) (hDmax : 10000 * (g + D) < 306001 * (m + 2))
    (hY1 : -32768 ≤ Y) (hY2 : Y ≤ 32767)
    (hjd : (2299160.5 : ℚ) ≤ julian_day ⟨Y, M, (D : ℚ), .gregorian⟩) :
    date_from_julian_day (julian_day ⟨Y, M, (D : ℚ), .gregorian⟩) = .ok Y M.num ((D : ℚ)) := by
  have hjdeq : julian_day ⟨Y, M, (D : ℚ), .gregorian⟩
      = ((365 * (Y + 4716) + (Y + 4716) / 4 + g + D - Y / 100 + Y / 100 / 4 - 1522 : ℤ) : ℚ)
        - 0.5 := by
    rw [julian_day_gregorian_eq, hay, ham, hgdef]
    push_cast
    ring
  rw [hjdeq] at hjd ⊢
  have hNc : 2299161 ≤ 365 * (Y + 4716) + (Y + 4716) / 4 + g + D - Y / 100 + Y / 100 / 4 - 1522 := by
    have h2 : (2299161 : ℚ)
        ≤ ((365 * (Y + 4716) + (Y + 4716) / 4 + g + D - Y / 100 + Y / 100 / 4 - 1522 : ℤ) : ℚ) := by
      linarith
    exact_mod_cast h2
  rw [dfjd_at_half _ (by omega)]
  rw [c1_core Y m g D hm1 (by omega) hgdef hD1 hDmax (Or.inl hDcap) hNc]
  rw [if_pos hm2]
  simp only [dfjdYear]
  rw [if_pos (by omega : (2 : ℤ) < m)]
  rw [show Y + 4716 - 4716 = Y from by omega]
  rw [show wrapI16 Y = Y from by unfold wrapI16; omega]
  rw [show wrapU8 m = m from by unfold wrapU8; omega]
  rw [hMnum]

/-- Round-trip case for January and February (shifted to months 13 and 14 of
the prior year through the wrapping `i16` subtraction, whose result is the
parameter `A`). -/
lemma c1_case_janfeb (Y A m g D : ℤ) (M : Month)
    (hMnum : M.num = m - 12) (hay : astro_year Y M = A) (ham : astro_month M = m)
    (hm13 : m = 13 ∨ m = 14)
    (hgdef : 306001 * (m + 1) / 10000 = g)
    (hD1 : 1 ≤ D) (hDmax : 10000 * (g + D) < 306001 * (m + 2))
    (hfeb : g + D ≤ 487 ∨
      (g + D = 488 ∧ (A + 4716) % 4 = 3
        ∧ ((A + 1) % 100 = 0 → (A + 1) % 400 = 0)
        ∧ ((A + 1) % 100 ≠ 0 → (A + 1) % 4 = 0)))
    (hwrap : wrapI16 (A + 1) = Y)
    (hjd : (2299160.5 : ℚ) ≤ julian_day ⟨Y, M, (D : ℚ), .gregorian⟩) :
    date_from_julian_day (julian_day ⟨Y, M, (D : ℚ), .gregorian⟩) = .ok Y M.num ((D : ℚ)) := by
  have hjdeq : julian_day ⟨Y, M, (D : ℚ), .gregorian⟩
      = ((365 * (A + 4716) + (A + 4716) / 4 + g + D
          - A / 100 + A / 100 / 4 - 1522 : ℤ) : ℚ) - 0.5 := by
    rw [julian_day_gregorian_eq, hay, ham, hgdef]
    push_cast
    ring
  rw [hjdeq] at hjd ⊢
  have hNc : 2299161 ≤ 365 * (A + 4716) + (A + 4716) / 4 + g + D
      - A / 100 + A / 100 / 4 - 1522 := by
    have h2 : (2299161 : ℚ)
        ≤ ((365 * (A + 4716) + (A + 4716) / 4 + g + D
            - A / 100 + A / 100 / 4 - 1522 : ℤ) : ℚ) := by
      linarith
    exact_mod_cast h2
  rw [dfjd_at_half _ (by omega)]
  rw [c1_core A m g D (by omega) (by omega) hgdef hD1 hDmax hfeb hNc]
  rw [if_neg (by omega : ¬ m ≤ 12)]
  simp only [dfjdYear]
  rw [if_neg (by omega : ¬ (2 : ℤ) < m - 12), if_pos (by omega : m - 12 = 1 ∨ m - 12 = 2)]
  rw [show A + 4716 - 4715 = A + 1 from by omega]
  rw [hwrap]
  rw [show wrapU8 (m - 12) = m - 12 from by unfold wrapU8; omega]
  rw [hMnum]

/-- C1 (amended). For every calendar-valid Gregorian date with integer day,
a year in the representable `i16` range, and a Julian day at or after the
Gregorian reform instant 2299160.5 (1582-10-15), the round trip through
`julian_day` and `date_from_julian_day` succeeds and reconstructs year,
month and day exactly (hence within any positive tolerance). -/
theorem c1_roundtrip_after_reform (Y : ℤ) (M : Month) (D : ℤ)
    (hY1 : -32768 ≤ Y) (hY2 : Y ≤ 32767)
    (hD1 : 1 ≤ D) (hD2 : D ≤ month_length Y .gregorian M)
    (hjd : (2299160.5 : ℚ) ≤ julian_day ⟨Y, M, (D : ℚ), .gregorian⟩) :
    date_from_julian_day (julian_day ⟨Y, M, (D : ℚ), .gregorian⟩) = .ok Y M.num ((D : ℚ)) := by
  cases M
  case mar =>
    have hD31 : D ≤ 31 := hD2
    exact c1_case_regular Y 3 122 D _ rfl (by norm_num [astro_year, Month.num])
      (by norm_num [astro_month, Month.num]) (by norm_num) (by norm_num) (by decide)
      hD1 (by omega) (by omega) hY1 hY2 hjd
  case apr =>
    have hD30 : D ≤ 30 := hD2
    exact c1_case_regular Y 4 153 D _ rfl (by norm_num [astro_year, Month.num])
      (by norm_num [astro_month, Month.num]) (by norm_num) (by norm_num) (by decide)
      hD1 (by omega) (by omega) hY1 hY2 hjd
  case may =>
    have hD31 : D ≤ 31 := hD2
    exact c1_case_regular Y 5 183 D _ rfl (by norm_num [astro_year, Month.num])
      (by norm_num [astro_month, Month.num]) (by norm_num) (by norm_num) (by decide)
      hD1 (by omega) (by omega) hY1 hY2 hjd
  case june =>
    have hD30 : D ≤ 30 := hD2
    exact c1_case_regular Y 6 214 D _ rfl (by norm_num [astro_year, Month.num])
      (by norm_num [astro_month, Month.num]) (by norm_num) (by norm_num) (by decide)
      hD1 (by omega) (by omega) hY1 hY2 hjd
  case july =>
    have hD31 : D ≤ 31 := hD2
    exact c1_case_regular Y 7 244 D _ rfl (by norm_num [astro_year, Month.num])
      (by norm_num [astro_month, Month.num]) (by norm_num) (by norm_num) (by decide)
      hD1 (by omega) (by omega) hY1 hY2 hjd
  case aug =>
    have hD31 : D ≤ 31 := hD2
    exact c1_case_regular Y 8 275 D _ rfl (by norm_num [astro_year, Month.num])
      (by norm_num [astro_month, Month.num]) (by norm_num) (by norm_num) (by decide)
      hD1 (by omega) (by omega) hY1 hY2 hjd
  case sept =>
    have hD30 : D ≤ 30 := hD2
    exact c1_case_regular Y 9 306 D _ rfl (by norm_num [astro_year, Month.num])
      (by norm_num [astro_month, Month.num]) (by norm_num) (by norm_num) (by decide)
      hD1 (by omega) (by omega) hY1 hY2 hjd
  case oct =>
    have hD31 : D ≤ 31 := hD2
    exact c1_case_regular Y 10 336 D _ rfl (by norm_num [astro_year, Month.num])
      (by norm_num [astro_month, Month.num]) (by norm_num) (by norm_num) (by decide)
      hD1 (by omega) (by omega) hY1 hY2 hjd
  case nov =>
    have hD30 : D ≤ 30 := hD2
    exact c1_case_regular Y 11 367 D _ rfl (by norm_num [astro_year, Month.num])
      (by norm_num [astro_month, Month.num]) (by norm_num) (by norm_num) (by decide)
      hD1 (by omega) (by omega) hY1 hY2 hjd
  case dec =>
    have hD31 : D ≤ 31 := hD2
    exact c1_case_regular Y 12 397 D _ rfl (by norm_num [astro_year, Month.num])
      (by norm_num [astro_month, Month.num]) (by norm_num) (by norm_num) (by decide)
      hD1 (by omega) (by omega) hY1 hY2 hjd
  case jan =>
    have hD31 : D ≤ 31 := hD2
    exact c1_case_janfeb Y (wrapI16 (Y - 1)) 13 428 D _ rfl
      (by norm_num [astro_year, Month.num])
      (by norm_num [astro_month, Month.num]) (Or.inl rfl) (by decide)
      hD1 (by omega) (Or.inl (by omega)) (by unfold wrapI16; omega) hjd
  case feb =>
    cases hL : is_leap_year Y .gregorian with
    | false =>
      have hD28 : D ≤ 28 := by
        have : month_length Y .gregorian .feb = 28 := by
          simp only [month_length, hL]
          norm_num
        omega
      exact c1_case_janfeb Y (wrapI16 (Y - 1)) 14 459 D _ rfl
        (by norm_num [astro_year, Month.num])
        (by norm_num [astro_month, Month.num]) (Or.inr rfl) (by decide)
        hD1 (by omega) (Or.inl (by omega)) (by unfold wrapI16; omega) hjd
    | true =>
      have hD29 : D ≤ 29 := by
        have : month_length Y .gregorian .feb = 29 := by
          simp only [month_length, hL]
          norm_num
        omega
      have hmods : (Y % 100 = 0 → Y % 400 = 0) ∧ (Y % 100 ≠ 0 → Y % 4 = 0) :=
        (is_leap_year_gregorian_iff Y).mp hL
      rcases le_or_lt D 28 with hD28 | hD29e
      · exact c1_case_janfeb Y (wrapI16 (Y - 1)) 14 459 D _ rfl
          (by norm_num [astro_year, Month.num])
          (by norm_num [astro_month, Month.num]) (Or.inr rfl) (by decide)
          hD1 (by omega) (Or.inl (by omega)) (by unfold wrapI16; omega) hjd
      · have hY4 : Y % 4 = 0 := by
          rcases hmods with ⟨ha, hb⟩
          by_cases h : Y % 100 = 0
          · have := ha h
            omega
          · exact hb h
        have hAcase : wrapI16 (Y - 1) = Y - 1 ∨ (Y = -32768 ∧ wrapI16 (Y - 1) = 32767) := by
          unfold wrapI16
          omega
        have hcond : (wrapI16 (Y - 1) + 4716) % 4 = 3
            ∧ ((wrapI16 (Y - 1) + 1) % 100 = 0 → (wrapI16 (Y - 1) + 1) % 400 = 0)
            ∧ ((wrapI16 (Y - 1) + 1) % 100 ≠ 0 → (wrapI16 (Y - 1) + 1) % 4 = 0) := by
          rcases hAcase with hA | ⟨hYm, hA⟩
          · rw [hA]
            refine ⟨by omega, ?_, ?_⟩
            · intro hh
              have := hmods.1 (by omega)
              omega
            · intro hh
              omega
          · rw [hA]
            exact ⟨by decide, by decide, by decide⟩
        exact c1_case_janfeb Y (wrapI16 (Y - 1)) 14 459 D _ rfl
          (by norm_num [astro_year, Month.num])
          (by norm_num [astro_month, Month.num]) (Or.inr rfl) (by decide)
          hD1 (by omega)
          (Or.inr ⟨by omega, hcond.1, hcond.2.1, hcond.2.2⟩)
          (by unfold wrapI16; omega) hjd

/-- Witness for C1 at the Gregorian date 2000-03-01. -/
theorem c1_roundtrip_after_reform_witness :
    ((-32768 : ℤ) ≤ 2000 ∧ (2000 : ℤ) ≤ 32767 ∧ (1 : ℤ) ≤ 1 ∧
      (1 : ℤ) ≤ month_length 2000 .gregorian .mar ∧
      (2299160.5 : ℚ) ≤ julian_day ⟨2000, .mar, ((1 : ℤ) : ℚ), .gregorian⟩) ∧
    date_from_julian_day (julian_day ⟨2000, .mar, ((1 : ℤ) : ℚ), .gregorian⟩)
      = .ok 2000 (Month.num .mar) ((1 : ℤ) : ℚ) := by
  have hjd : (2299160.5 : ℚ) ≤ julian_day ⟨2000, .mar, ((1 : ℤ) : ℚ), .gregorian⟩ := by
    rw [julian_day_gregorian_eq]
    norm_num [astro_year, astro_month, Month.num]
  exact ⟨⟨by norm_num, by norm_num, le_refl 1, by decide, hjd⟩,
    c1_roundtrip_after_reform 2000 .mar 1 (by norm_num) (by norm_num) (by norm_num)
      (by decide) hjd⟩

/-- Counterexample to C1 as stated: the valid Gregorian date 1582-10-04
(before the reform) comes back as 1582-09-24, and the calendar-invalid but
`decimal_day ∈ [1, 32)` Gregorian date 2024-02-30 comes back as 2024-03-01;
in both cases the (year, month, day) triple is not reconstructed. -/
theorem c1_counterexample :
    date_from_julian_day (julian_day ⟨1582, .oct, 4, .gregorian⟩) = .ok 1582 9 24 ∧
    date_from_julian_day (julian_day ⟨1582, .oct, 4, .gregorian⟩) ≠ .ok 1582 10 4 ∧
    date_from_julian_day (julian_day ⟨2024, .feb, 30, .gregorian⟩) = .ok 2024 3 1 ∧
    date_from_julian_day (julian_day ⟨2024, .feb, 30, .gregorian⟩) ≠ .ok 2024 2 30 := by
  have h1 : date_from_julian_day (julian_day ⟨1582, .oct, 4, .gregorian⟩) = .ok 1582 9 24 := by
    have hjd : julian_day ⟨1582, .oct, 4, .gregorian⟩ = ((2299150 : ℤ) : ℚ) - 0.5 := by
      rw [julian_day_gregorian_eq]
      norm_num [astro_year, astro_month, Month.num]
    rw [hjd, dfjd_at_half 2299150 (by norm_num)]
    simp only [dfjdFromZF]
    rw [if_pos (by decide : (2299150 : ℤ) < 2299161)]
    simp only [dfjdFromA]
    rw [floor_sub_1221_div, floor_36525, floor_div_306001, floor_3060]
    norm_num [dfjdYear, wrapI16, wrapU8]
  have h2 : date_from_julian_day (julian_day ⟨2024, .feb, 30, .gregorian⟩) = .ok 2024 3 1 := by
    have hjd : julian_day ⟨2024, .feb, 30, .gregorian⟩ = ((2460371 : ℤ) : ℚ) - 0.5 := by
      rw [julian_day_gregorian_eq]
      norm_num [astro_year, astro_month, Month.num, wrapI16]
    rw [hjd, dfjd_at_half 2460371 (by norm_num)]
    simp only [dfjdFromZF]
    rw [if_neg (by decide : ¬ (2460371 : ℤ) < 2299161)]
    rw [show dfjdGregCorrection 2460371 = 2460384 by
      simp only [dfjdGregCorrection]
      rw [floor_alpha, floor_div_4]
      decide]
    simp only [dfjdFromA]
    rw [floor_sub_1221_div, floor_36525, floor_div_306001, floor_3060]
    norm_num [dfjdYear, wrapI16, wrapU8]
  refine ⟨h1, ?_, h2, ?_⟩
  · rw [h1]
    intro hcon
    rw [DateResult.ok.injEq] at hcon
    norm_num at hcon
  · rw [h2]
    intro hcon
    rw [DateResult.ok.injEq] at hcon
    norm_num at hcon


/-! ### C8: the equatorial-ecliptic round trip -/

lemma atan2_smul (c y x : ℝ) (hc : 0 < c) : atan2 (c * y) (c * x) = atan2 y x := by
  have hcne : c ≠ 0 := ne_of_gt hc
  have hx1 : (0 < c * x) ↔ (0 < x) := ⟨fun h => by nlinarith, fun h => mul_pos hc h⟩
  have hx2 : (c * x < 0) ↔ (x < 0) := ⟨fun h => by nlinarith, fun h => mul_neg_of_pos_of_neg hc h⟩
  have hy1 : (0 ≤ c * y) ↔ (0 ≤ y) := ⟨fun h => by nlinarith, fun h => mul_nonneg hc.le h⟩
  have hy2 : (0 < c * y) ↔ (0 < y) := ⟨fun h => by nlinarith, fun h => mul_pos hc h⟩
  have hy3 : (c * y < 0) ↔ (y < 0) := ⟨fun h => by nlinarith, fun h => mul_neg_of_pos_of_neg hc h⟩
  have hdiv : c * y / (c * x) = y / x := mul_div_mul_left y x hcne
  simp only [atan2, hdiv, hx1, hx2, hy1, hy2, hy3]

lemma atan2_unit (y x : ℝ) (h : x ^ 2 + y ^ 2 = 1) :
    Real.cos (atan2 y x) = x ∧ Real.sin (atan2 y x) = y := by
  rcases lt_trichotomy 0 x with hx | hx | hx
  · have hxne : x ≠ 0 := by positivity
    have h1 : 1 + (y / x) ^ 2 = (1 / x) ^ 2 := by
      field_simp
      linarith
    have hs : Real.sqrt (1 + (y / x) ^ 2) = 1 / x := by
      rw [h1, Real.sqrt_sq (by positivity)]
    simp only [atan2, if_pos hx]
    rw [Real.cos_arctan, Real.sin_arctan, hs]
    constructor
    · field_simp
    · field_simp
  · have hx0 : x = 0 := hx.symm
    subst hx0
    have hy2 : y ^ 2 = 1 := by linarith
    have h1 : (y - 1) * (y + 1) = 0 := by linear_combination hy2
    simp only [atan2]
    rw [if_neg (lt_irrefl 0), if_neg (lt_irrefl 0)]
    rcases mul_eq_zero.mp h1 with h2 | h2
    · have hy1 : y = 1 := by linarith
      subst hy1
      rw [if_pos one_pos]
      exact ⟨Real.cos_pi_div_two, Real.sin_pi_div_two⟩
    · have hy1 : y = -1 := by linarith
      subst hy1
      rw [if_neg (by norm_num), if_pos (by norm_num)]
      constructor
      · rw [Real.cos_neg]
        exact Real.cos_pi_div_two
      · rw [Real.sin_neg, Real.sin_pi_div_two]
  · have hxne : x ≠ 0 := ne_of_lt hx
    have h1 : 1 + (y / x) ^ 2 = (-(1 / x)) ^ 2 := by
      field_simp
      linarith
    have hxinv : (0:ℝ) ≤ -(1 / x) := by
      have : 1 / x < 0 := one_div_neg.mpr hx
      linarith
    have hs : Real.sqrt (1 + (y / x) ^ 2) = -(1 / x) := by
      rw [h1, Real.sqrt_sq hxinv]
    simp only [atan2, if_neg (by linarith : ¬ 0 < x), if_pos hx]
    rcases le_or_lt 0 y with hy | hy
    · rw [if_pos hy]
      constructor
      · rw [Real.cos_add_pi, Real.cos_arctan, hs]
        field_simp
      · rw [Real.sin_add_pi, Real.sin_arctan, hs]
        field_simp
    · rw [if_neg (not_le.mpr hy)]
      constructor
      · rw [Real.cos_sub_pi, Real.cos_arctan, hs]
        field_simp
      · rw [Real.sin_sub_pi, Real.sin_arctan, hs]
        field_simp

/-- C8 (amended). For every obliquity and every (right ascension,
declination) with `|Dec| < pi/2` whose ecliptic image also has latitude of
absolute value below `pi/2`, applying the ecliptic transforms and then their
inverses recovers the declination exactly and the right ascension exactly as
an angle (equal cosine and sine). -/
theorem c8_eq_ecliptic_roundtrip (ε α δ : ℝ)
    (h1 : |δ| < Real.pi / 2)
    (h2 : |ecliptic_lat_from_eq α δ ε| < Real.pi / 2) :
    dec_from_ecliptic (ecliptic_long_from_eq α δ ε) (ecliptic_lat_from_eq α δ ε) ε = δ ∧
    Real.cos (asc_from_ecliptic (ecliptic_long_from_eq α δ ε)
        (ecliptic_lat_from_eq α δ ε) ε) = Real.cos α ∧
    Real.sin (asc_from_ecliptic (ecliptic_long_from_eq α δ ε)
        (ecliptic_lat_from_eq α δ ε) ε) = Real.sin α := by
  obtain ⟨h1a, h1b⟩ := abs_lt.mp h1
  obtain ⟨h2a, h2b⟩ := abs_lt.mp h2
  have e1 := Real.sin_sq_add_cos_sq α
  have e2 := Real.sin_sq_add_cos_sq δ
  have e3 := Real.sin_sq_add_cos_sq ε
  have hcosd : 0 < Real.cos δ := Real.cos_pos_of_mem_Ioo ⟨h1a, h1b⟩
  have hcosb : 0 < Real.cos (ecliptic_lat_from_eq α δ ε) := Real.cos_pos_of_mem_Ioo ⟨h2a, h2b⟩
  have hcosbne : Real.cos (ecliptic_lat_from_eq α δ ε) ≠ 0 := by positivity
  have hcosdne : Real.cos δ ≠ 0 := by positivity
  have hsum : (Real.cos α * Real.cos δ) ^ 2
      + (Real.sin α * Real.cos δ * Real.cos ε + Real.sin δ * Real.sin ε) ^ 2
      + (Real.sin δ * Real.cos ε - Real.cos δ * Real.sin ε * Real.sin α) ^ 2 = 1 := by
    linear_combination (Real.sin α ^ 2 * Real.cos δ ^ 2 + Real.sin δ ^ 2) * e3
      + Real.cos δ ^ 2 * e1 + e2
  have hwz1 : -1 ≤ Real.sin δ * Real.cos ε - Real.cos δ * Real.sin ε * Real.sin α := by
    nlinarith [sq_nonneg (Real.cos α * Real.cos δ),
      sq_nonneg (Real.sin α * Real.cos δ * Real.cos ε + Real.sin δ * Real.sin ε),
      sq_nonneg (Real.sin δ * Real.cos ε - Real.cos δ * Real.sin ε * Real.sin α + 1)]
  have hwz2 : Real.sin δ * Real.cos ε - Real.cos δ * Real.sin ε * Real.sin α ≤ 1 := by
    nlinarith [sq_nonneg (Real.cos α * Real.cos δ),
      sq_nonneg (Real.sin α * Real.cos δ * Real.cos ε + Real.sin δ * Real.sin ε),
      sq_nonneg (Real.sin δ * Real.cos ε - Real.cos δ * Real.sin ε * Real.sin α - 1)]
  have hsinb : Real.sin (ecliptic_lat_from_eq α δ ε)
      = Real.sin δ * Real.cos ε - Real.cos δ * Real.sin ε * Real.sin α :=
    Real.sin_arcsin hwz1 hwz2
  have hcosbsq : Real.cos (ecliptic_lat_from_eq α δ ε) ^ 2
      = 1 - (Real.sin δ * Real.cos ε - Real.cos δ * Real.sin ε * Real.sin α) ^ 2 := by
    have hp := Real.sin_sq_add_cos_sq (ecliptic_lat_from_eq α δ ε)
    rw [hsinb] at hp
    linarith
  have hlam : ecliptic_long_from_eq α δ ε
      = atan2 (Real.sin α * Real.cos δ * Real.cos ε + Real.sin δ * Real.sin ε)
          (Real.cos α * Real.cos δ) := by
    show atan2 (Real.sin α * Real.cos ε + Real.tan δ * Real.sin ε) (Real.cos α) = _
    rw [← atan2_smul (Real.cos δ)
      (Real.sin α * Real.cos ε + Real.tan δ * Real.sin ε) (Real.cos α) hcosd]
    congr 1
    · rw [Real.tan_eq_sin_div_cos]
      field_simp
      ring
    · ring
  have hscale : atan2 (Real.sin α * Real.cos δ * Real.cos ε + Real.sin δ * Real.sin ε)
        (Real.cos α * Real.cos δ)
      = atan2 ((Real.sin α * Real.cos δ * Real.cos ε + Real.sin δ * Real.sin ε)
            / Real.cos (ecliptic_lat_from_eq α δ ε))
          ((Real.cos α * Real.cos δ) / Real.cos (ecliptic_lat_from_eq α δ ε)) := by
    rw [← atan2_smul (Real.cos (ecliptic_lat_from_eq α δ ε))
      ((Real.sin α * Real.cos δ * Real.cos ε + Real.sin δ * Real.sin ε)
        / Real.cos (ecliptic_lat_from_eq α δ ε))
      ((Real.cos α * Real.cos δ) / Real.cos (ecliptic_lat_from_eq α δ ε)) hcosb]
    congr 1 <;> field_simp
  have hu : ((Real.cos α * Real.cos δ) / Real.cos (ecliptic_lat_from_eq α δ ε)) ^ 2
      + ((Real.sin α * Real.cos δ * Real.cos ε + Real.sin δ * Real.sin ε)
          / Real.cos (ecliptic_lat_from_eq α δ ε)) ^ 2 = 1 := by
    rw [div_pow, div_pow, div_add_div_same, div_eq_one_iff_eq (by positivity)]
    rw [hcosbsq]
    linarith [hsum]
  have hcs := atan2_unit _ _ hu
  have hlamcos : Real.cos (ecliptic_long_from_eq α δ ε)
        * Real.cos (ecliptic_lat_from_eq α δ ε)
      = Real.cos α * Real.cos δ := by
    rw [hlam, hscale, hcs.1]
    field_simp
  have hlamsin : Real.sin (ecliptic_long_from_eq α δ ε)
        * Real.cos (ecliptic_lat_from_eq α δ ε)
      = Real.sin α * Real.cos δ * Real.cos ε + Real.sin δ * Real.sin ε := by
    rw [hlam, hscale, hcs.2]
    field_simp
  have hasc : asc_from_ecliptic (ecliptic_long_from_eq α δ ε)
        (ecliptic_lat_from_eq α δ ε) ε
      = atan2 (Real.sin α) (Real.cos α) := by
    show atan2 (Real.sin (ecliptic_long_from_eq α δ ε) * Real.cos ε
        - Real.tan (ecliptic_lat_from_eq α δ ε) * Real.sin ε)
        (Real.cos (ecliptic_long_from_eq α δ ε)) = _
    rw [← atan2_smul (Real.cos (ecliptic_lat_from_eq α δ ε))
      (Real.sin (ecliptic_long_from_eq α δ ε) * Real.cos ε
        - Real.tan (ecliptic_lat_from_eq α δ ε) * Real.sin ε)
      (Real.cos (ecliptic_long_from_eq α δ ε)) hcosb]
    rw [show Real.cos (ecliptic_lat_from_eq α δ ε)
          * (Real.sin (ecliptic_long_from_eq α δ ε) * Real.cos ε
            - Real.tan (ecliptic_lat_from_eq α δ ε) * Real.sin ε)
        = Real.sin α * Real.cos δ from by
      rw [Real.tan_eq_sin_div_cos]
      rw [show Real.cos (ecliptic_lat_from_eq α δ ε)
            * (Real.sin (ecliptic_long_from_eq α δ ε) * Real.cos ε
              - Real.sin (ecliptic_lat_from_eq α δ ε)
                / Real.cos (ecliptic_lat_from_eq α δ ε) * Real.sin ε)
          = Real.sin (ecliptic_long_from_eq α δ ε)
              * Real.cos (ecliptic_lat_from_eq α δ ε) * Real.cos ε
            - Real.sin (ecliptic_lat_from_eq α δ ε) * Real.sin ε from by
        field_simp
        ring]
      linear_combination Real.cos ε * hlamsin - Real.sin ε * hsinb
        + Real.sin α * Real.cos δ * e3]
    rw [show Real.cos (ecliptic_lat_from_eq α δ ε)
          * Real.cos (ecliptic_long_from_eq α δ ε)
        = Real.cos α * Real.cos δ from by linear_combination hlamcos]
    rw [show Real.sin α * Real.cos δ = Real.cos δ * Real.sin α from mul_comm _ _]
    rw [show Real.cos α * Real.cos δ = Real.cos δ * Real.cos α from mul_comm _ _]
    exact atan2_smul _ _ _ hcosd
  have hca := atan2_unit (Real.sin α) (Real.cos α) (by linear_combination e1)
  refine ⟨?_, ?_, ?_⟩
  · show Real.arcsin (Real.sin (ecliptic_lat_from_eq α δ ε) * Real.cos ε
        + Real.cos (ecliptic_lat_from_eq α δ ε) * Real.sin ε
          * Real.sin (ecliptic_long_from_eq α δ ε)) = δ
    rw [show Real.sin (ecliptic_lat_from_eq α δ ε) * Real.cos ε
        + Real.cos (ecliptic_lat_from_eq α δ ε) * Real.sin ε
          * Real.sin (ecliptic_long_from_eq α δ ε)
        = Real.sin δ from by
      linear_combination Real.cos ε * hsinb + Real.sin ε * hlamsin + Real.sin δ * e3]
    exact Real.arcsin_sin (by linarith) (by linarith)
  · rw [hasc]
    exact hca.1
  · rw [hasc]
    exact hca.2

/-- Witness for C8 at (RA, Dec) = (0, 0) with the J2000 mean obliquity. -/
theorem c8_eq_ecliptic_roundtrip_witness :
    (|(0 : ℝ)| < Real.pi / 2 ∧ |ecliptic_lat_from_eq 0 0 oblqJ2000| < Real.pi / 2) ∧
    (dec_from_ecliptic (ecliptic_long_from_eq 0 0 oblqJ2000)
        (ecliptic_lat_from_eq 0 0 oblqJ2000) oblqJ2000 = 0 ∧
      Real.cos (asc_from_ecliptic (ecliptic_long_from_eq 0 0 oblqJ2000)
          (ecliptic_lat_from_eq 0 0 oblqJ2000) oblqJ2000) = Real.cos 0 ∧
      Real.sin (asc_from_ecliptic (ecliptic_long_from_eq 0 0 oblqJ2000)
          (ecliptic_lat_from_eq 0 0 oblqJ2000) oblqJ2000) = Real.sin 0) := by
  have hb : ecliptic_lat_from_eq 0 0 oblqJ2000 = 0 := by
    show Real.arcsin (Real.sin 0 * Real.cos oblqJ2000
        - Real.cos 0 * Real.sin oblqJ2000 * Real.sin 0) = 0
    rw [Real.sin_zero]
    norm_num [Real.arcsin_zero]
  have h1 : |(0 : ℝ)| < Real.pi / 2 := by
    rw [abs_zero]
    positivity
  have h2 : |ecliptic_lat_from_eq 0 0 oblqJ2000| < Real.pi / 2 := by
    rw [hb, abs_zero]
    positivity
  exact ⟨⟨h1, h2⟩, c8_eq_ecliptic_roundtrip oblqJ2000 0 0 h1 h2⟩

/-- Counterexample to C8 as stated: at (RA, Dec) = (0, pi/2) the round trip
returns a declination below `pi/2 - 1e-9`, so the pair is not recovered
within the stated tolerance (the `tan` of the pole makes the formulas
singular there). -/
theorem c8_counterexample :
    dec_from_ecliptic (ecliptic_long_from_eq 0 (Real.pi / 2) oblqJ2000)
        (ecliptic_lat_from_eq 0 (Real.pi / 2) oblqJ2000) oblqJ2000
      < Real.pi / 2 - 1 / 1000000000 := by
  have hpi1 : (3.141592 : ℝ) < Real.pi := Real.pi_gt_d6
  have hpi2 : Real.pi < 3.141593 := Real.pi_lt_d6
  have hob1 : (2 / 5 : ℝ) ≤ oblqJ2000 := by
    unfold oblqJ2000
    nlinarith
  have hob2 : oblqJ2000 ≤ 1 := by
    unfold oblqJ2000
    nlinarith
  have hobpi : oblqJ2000 ≤ Real.pi := by linarith
  have hcos_ub : Real.cos oblqJ2000 ≤ Real.cos (2 / 5) :=
    Real.cos_le_cos_of_nonneg_of_le_pi (by norm_num) hobpi hob1
  have hcb := Real.cos_bound (x := (2 / 5 : ℝ)) (by rw [abs_of_nonneg] <;> norm_num)
  have hcos25 : Real.cos (2 / 5 : ℝ) ≤ 0.9214 := by
    have h2 := (abs_le.mp hcb).2
    rw [abs_of_nonneg (by norm_num : (0:ℝ) ≤ 2/5)] at h2
    nlinarith
  have hcosnn : 0 ≤ Real.cos oblqJ2000 :=
    Real.cos_nonneg_of_mem_Icc ⟨by nlinarith, by nlinarith⟩
  have hsq : Real.cos oblqJ2000 * Real.cos oblqJ2000 ≤ 0.849 := by nlinarith
  have hlong : ecliptic_long_from_eq 0 (Real.pi / 2) oblqJ2000 = 0 := by
    show atan2 (Real.sin 0 * Real.cos oblqJ2000
        + Real.tan (Real.pi / 2) * Real.sin oblqJ2000) (Real.cos 0) = 0
    rw [show Real.sin 0 * Real.cos oblqJ2000
        + Real.tan (Real.pi / 2) * Real.sin oblqJ2000 = 0 from by
      rw [Real.sin_zero, Real.tan_pi_div_two]
      ring]
    rw [Real.cos_zero]
    unfold atan2
    rw [if_pos one_pos]
    norm_num [Real.arctan_zero]
  have hlat : ecliptic_lat_from_eq 0 (Real.pi / 2) oblqJ2000
      = Real.arcsin (Real.cos oblqJ2000) := by
    show Real.arcsin (Real.sin (Real.pi / 2) * Real.cos oblqJ2000
        - Real.cos (Real.pi / 2) * Real.sin oblqJ2000 * Real.sin 0) = _
    rw [Real.sin_pi_div_two, Real.cos_pi_div_two, Real.sin_zero]
    norm_num
  have hdec : dec_from_ecliptic (ecliptic_long_from_eq 0 (Real.pi / 2) oblqJ2000)
        (ecliptic_lat_from_eq 0 (Real.pi / 2) oblqJ2000) oblqJ2000
      = Real.arcsin (Real.cos oblqJ2000 * Real.cos oblqJ2000) := by
    rw [hlong, hlat]
    show Real.arcsin (Real.sin (Real.arcsin (Real.cos oblqJ2000)) * Real.cos oblqJ2000
        + Real.cos (Real.arcsin (Real.cos oblqJ2000)) * Real.sin oblqJ2000 * Real.sin 0) = _
    rw [Real.sin_zero, Real.sin_arcsin (by linarith [Real.neg_one_le_cos oblqJ2000])
      (Real.cos_le_one oblqJ2000)]
    norm_num
  rw [hdec]
  have hmono : Real.arcsin (Real.cos oblqJ2000 * Real.cos oblqJ2000)
      ≤ Real.arcsin 0.849 := Real.monotone_arcsin hsq
  have harc : Real.arcsin (0.849 : ℝ) < Real.pi / 2 - 1 / 1000000000 := by
    by_contra hcon
    push_neg at hcon
    have hmem1 : Real.pi / 2 - 1 / 1000000000 ∈ Set.Icc (-(Real.pi / 2)) (Real.pi / 2) :=
      ⟨by nlinarith, by nlinarith⟩
    have hsinle : Real.sin (Real.pi / 2 - 1 / 1000000000)
        ≤ Real.sin (Real.arcsin 0.849) :=
      Real.strictMonoOn_sin.monotoneOn hmem1 (Real.arcsin_mem_Icc _) hcon
    rw [Real.sin_arcsin (by norm_num) (by norm_num), Real.sin_pi_div_two_sub] at hsinle
    have hcb2 := Real.cos_bound (x := (1 / 1000000000 : ℝ)) (by
      rw [abs_of_nonneg] <;> norm_num)
    have h3 := (abs_le.mp hcb2).1
    rw [abs_of_nonneg (by norm_num : (0:ℝ) ≤ 1/1000000000)] at h3
    nlinarith
  linarith

/-! ### C9: the literal horizontal-to-equatorial declination formula -/

/-- C9. `dec_from_horizontal` computes the literal source formula with the
repeated `cos(az)` factor, and this differs from the textbook
`cos(alt) * cos(az)` variant: at azimuth 0, altitude pi/3, latitude 0 the
literal formula gives -pi/2 while the textbook formula gives -pi/6. -/
theorem c9_dec_from_horizontal_literal :
    (∀ az alt observer_lat : ℝ,
      dec_from_horizontal az alt observer_lat
        = Real.arcsin (Real.sin observer_lat * Real.sin alt
            - Real.cos observer_lat * Real.cos az * Real.cos az)) ∧
    dec_from_horizontal 0 (Real.pi / 3) 0
      ≠ dec_from_horizontal_textbook 0 (Real.pi / 3) 0 := by
  refine ⟨fun az alt observer_lat => rfl, ?_⟩
  have hlit : dec_from_horizontal 0 (Real.pi / 3) 0 = -(Real.pi / 2) := by
    show Real.arcsin (Real.sin 0 * Real.sin (Real.pi / 3)
        - Real.cos 0 * Real.cos 0 * Real.cos 0) = _
    rw [show Real.sin 0 * Real.sin (Real.pi / 3)
        - Real.cos 0 * Real.cos 0 * Real.cos 0 = -1 from by
      rw [Real.sin_zero, Real.cos_zero]
      ring]
    exact Real.arcsin_neg_one
  have htxt : dec_from_horizontal_textbook 0 (Real.pi / 3) 0 = -(Real.pi / 6) := by
    show Real.arcsin (Real.sin 0 * Real.sin (Real.pi / 3)
        - Real.cos 0 * Real.cos (Real.pi / 3) * Real.cos 0) = _
    rw [show Real.sin 0 * Real.sin (Real.pi / 3)
        - Real.cos 0 * Real.cos (Real.pi / 3) * Real.cos 0 = -(1 / 2) from by
      rw [Real.sin_zero, Real.cos_zero, Real.cos_pi_div_three]
      ring]
    rw [Real.arcsin_neg]
    rw [show (1 / 2 : ℝ) = Real.sin (Real.pi / 6) from Real.sin_pi_div_six.symm]
    rw [Real.arcsin_sin (by linarith [Real.pi_pos]) (by linarith [Real.pi_pos])]
  rw [hlit, htxt]
  intro hcon
  have hpi := Real.pi_pos
  have h6 : Real.pi / 2 = Real.pi / 6 := by linarith
  linarith

end Apollo
